import Mathlib

/-!
# Verification of the signage-designer compliance engine

A shallow embedding, in Lean 4, of the rule-relevant source of the
`signage-designer` repository:

* `src/lib/compliance/bpa-rules.ts` — the BPA compliance rulebook and the
  `checkCompliance` evaluator (the library engine);
* `src/lib/templates/sign-templates.ts` — reference generation
  (`generateSignReference` / `getTypeCode`), the static template catalogue and
  template instantiation (`createSignFromTemplate` / `replaceTemplateVariables`);
* `src/mcp/server.js` — `getSignText`, the concatenated-text convention of the
  standalone-process engine.

Modelling conventions:

* JavaScript regexes are embedded as values of a small `Regex` type with an
  executable Brzozowski-derivative matcher (`Regex.rtest`, the analogue of
  `RegExp.prototype.test`: does any substring match?) and an inductive match
  semantics `RMatch`, proved equivalent.  The `/i` flag is modelled by
  case-folding the subject string with `Char.toLower` and writing the pattern
  literals in lower case (all pattern literals are ASCII).
* JavaScript numbers appearing as charges, periods and font sizes are modelled
  as `Nat` (the spec fixes them to non-negative integers); JS truthiness of a
  possibly-missing number is `Option Nat` being `some c` with `c ≠ 0`, and of a
  possibly-missing string is `Option String` being `some s` with `s ≠ ""`.
* Rule `message` / `suggestion` strings, element colours, alignment, font
  family and position rectangles are elided: no modelled code reads them
  (they feed only rendering and human-facing report text).
* `uuidv4()` is nondeterministic; it is modelled by an explicit supply
  `freshId : Nat → String` of identifiers, consumed in call order.
-/

/-- Regular expressions over `Char`, with character classes (`cls`) given by a
decidable predicate.  This is the pattern language needed for the JS regex
literals in the rulebook: literals, classes `\s` `\d` `[\d\s-]` `.`,
concatenation, alternation, option and (one-or-more / zero-or-more)
repetition, all expressible with `seq`/`alt`/`star`/`eps`. -/
inductive Regex where
  | emp
  | eps
  | cls (p : Char → Bool)
  | seq (r1 r2 : Regex)
  | alt (r1 r2 : Regex)
  | star (r : Regex)

namespace Regex

/-- Does the regex accept the empty string? -/
def nullable : Regex → Bool
  | .emp => false
  | .eps => true
  | .cls _ => false
  | .seq r1 r2 => nullable r1 && nullable r2
  | .alt r1 r2 => nullable r1 || nullable r2
  | .star _ => true

/-- Simplifying alternation (keeps derivatives small so that concrete
evaluation inside the kernel stays fast). -/
def mkAlt : Regex → Regex → Regex
  | .emp, r => r
  | r, .emp => r
  | r1, r2 => .alt r1 r2

/-- Simplifying concatenation. -/
def mkSeq : Regex → Regex → Regex
  | .emp, _ => .emp
  | _, .emp => .emp
  | .eps, r => r
  | r, .eps => r
  | r1, r2 => .seq r1 r2

/-- Brzozowski derivative: `deriv r c` matches `s` iff `r` matches `c :: s`. -/
def deriv : Regex → Char → Regex
  | .emp, _ => .emp
  | .eps, _ => .emp
  | .cls p, c => if p c then .eps else .emp
  | .seq r1 r2, c =>
      if nullable r1 then mkAlt (mkSeq (deriv r1 c) r2) (deriv r2 c)
      else mkSeq (deriv r1 c) r2
  | .alt r1 r2, c => mkAlt (deriv r1 c) (deriv r2 c)
  | .star r, c => mkSeq (deriv r c) (.star r)

/-- Executable whole-string matcher. -/
def run : Regex → List Char → Bool
  | r, [] => nullable r
  | r, c :: s => run (deriv r c) s

/-- Declarative match semantics. -/
inductive RMatch : Regex → List Char → Prop where
  | eps : RMatch .eps []
  | cls {p : Char → Bool} {c : Char} : p c = true → RMatch (.cls p) [c]
  | seq {r1 r2 : Regex} {s1 s2 : List Char} :
      RMatch r1 s1 → RMatch r2 s2 → RMatch (.seq r1 r2) (s1 ++ s2)
  | altL {r1 r2 : Regex} {s : List Char} : RMatch r1 s → RMatch (.alt r1 r2) s
  | altR {r1 r2 : Regex} {s : List Char} : RMatch r2 s → RMatch (.alt r1 r2) s
  | star0 {r : Regex} : RMatch (.star r) []
  | starS {r : Regex} {s1 s2 : List Char} :
      RMatch r s1 → RMatch (.star r) s2 → RMatch (.star r) (s1 ++ s2)

theorem not_rmatch_emp {s : List Char} : ¬ RMatch .emp s := by
  intro h; cases h

theorem rmatch_eps_iff {s : List Char} : RMatch .eps s ↔ s = [] := by
  constructor
  · intro h; cases h; rfl
  · rintro rfl; exact .eps

theorem rmatch_cls_iff {p : Char → Bool} {s : List Char} :
    RMatch (.cls p) s ↔ ∃ c, s = [c] ∧ p c = true := by
  constructor
  · intro h; cases h with
    | cls hp => exact ⟨_, rfl, hp⟩
  · rintro ⟨c, rfl, hp⟩; exact .cls hp

theorem rmatch_seq_iff {r1 r2 : Regex} {s : List Char} :
    RMatch (.seq r1 r2) s ↔ ∃ s1 s2, s = s1 ++ s2 ∧ RMatch r1 s1 ∧ RMatch r2 s2 := by
  constructor
  · intro h; cases h with
    | seq h1 h2 => exact ⟨_, _, rfl, h1, h2⟩
  · rintro ⟨s1, s2, rfl, h1, h2⟩; exact .seq h1 h2

theorem rmatch_alt_iff {r1 r2 : Regex} {s : List Char} :
    RMatch (.alt r1 r2) s ↔ RMatch r1 s ∨ RMatch r2 s := by
  constructor
  · intro h; cases h with
    | altL h => exact Or.inl h
    | altR h => exact Or.inr h
  · rintro (h | h)
    · exact .altL h
    · exact .altR h

theorem rmatch_star_elim {r : Regex} {x : List Char} (h : RMatch (.star r) x) :
    x = [] ∨ ∃ s1 s2, x = s1 ++ s2 ∧ s1 ≠ [] ∧ RMatch r s1 ∧ RMatch (.star r) s2 := by
  have main : ∀ {q : Regex} {x : List Char}, RMatch q x → ∀ {r' : Regex}, q = .star r' →
      x = [] ∨ ∃ s1 s2, x = s1 ++ s2 ∧ s1 ≠ [] ∧ RMatch r' s1 ∧ RMatch (.star r') s2 := by
    intro q x h
    induction h with
    | eps => intro r' hq; cases hq
    | cls _ => intro r' hq; cases hq
    | seq _ _ _ _ => intro r' hq; cases hq
    | altL _ _ => intro r' hq; cases hq
    | altR _ _ => intro r' hq; cases hq
    | star0 => intro r' hq; exact Or.inl rfl
    | @starS r0 s1 s2 h1 h2 ih1 ih2 =>
        intro r' hq
        injection hq with hr
        subst hr
        by_cases hs1 : s1 = []
        · subst hs1; simpa using ih2 rfl
        · exact Or.inr ⟨s1, s2, rfl, hs1, h1, h2⟩
  exact main h rfl

theorem nullable_iff (r : Regex) : nullable r = true ↔ RMatch r [] := by
  induction r with
  | emp => simp [nullable]; exact not_rmatch_emp
  | eps => simp [nullable]; exact .eps
  | cls p => simp [nullable, rmatch_cls_iff]
  | seq r1 r2 ih1 ih2 =>
      simp only [nullable, Bool.and_eq_true, ih1, ih2, rmatch_seq_iff]
      constructor
      · rintro ⟨h1, h2⟩; exact ⟨[], [], rfl, h1, h2⟩
      · rintro ⟨s1, s2, hs, h1, h2⟩
        rcases List.append_eq_nil.mp hs.symm with ⟨rfl, rfl⟩
        exact ⟨h1, h2⟩
  | alt r1 r2 ih1 ih2 =>
      simp only [nullable, Bool.or_eq_true, ih1, ih2, rmatch_alt_iff]
  | star r ih => simp [nullable]; exact .star0

theorem rmatch_mkAlt_iff {r1 r2 : Regex} {s : List Char} :
    RMatch (mkAlt r1 r2) s ↔ RMatch (.alt r1 r2) s := by
  rw [rmatch_alt_iff]
  cases r1 <;> cases r2 <;>
    simp only [mkAlt, rmatch_alt_iff] <;>
    first
      | rfl
      | (constructor
         · intro h; first | exact Or.inl h | exact Or.inr h
         · rintro (h | h) <;> first | exact h | exact absurd h not_rmatch_emp)

theorem rmatch_mkSeq_iff {r1 r2 : Regex} {s : List Char} :
    RMatch (mkSeq r1 r2) s ↔ RMatch (.seq r1 r2) s := by
  rw [rmatch_seq_iff]
  cases r1 <;> cases r2 <;>
    simp only [mkSeq, rmatch_seq_iff] <;>
    first
      | rfl
      | (constructor
         · intro h
           first
             | exact absurd h not_rmatch_emp
             | exact ⟨[], _, rfl, .eps, h⟩
             | exact ⟨_, [], (List.append_nil _).symm, h, .eps⟩
         · rintro ⟨s1, s2, rfl, h1, h2⟩
           first
             | exact absurd h1 not_rmatch_emp
             | exact absurd h2 not_rmatch_emp
             | (cases h1; simpa using h2)
             | (cases h2; simpa using h1))

theorem rmatch_deriv_iff : ∀ (r : Regex) (c : Char) (s : List Char),
    RMatch (deriv r c) s ↔ RMatch r (c :: s) := by
  intro r
  induction r with
  | emp =>
      intro c s
      simp only [deriv]
      exact iff_of_false not_rmatch_emp not_rmatch_emp
  | eps =>
      intro c s
      simp only [deriv]
      refine iff_of_false not_rmatch_emp ?_
      intro h; cases h
  | cls p =>
      intro c s
      simp only [deriv]
      by_cases hp : p c
      · simp only [hp, if_true, rmatch_eps_iff, rmatch_cls_iff]
        constructor
        · rintro rfl; exact ⟨c, rfl, hp⟩
        · rintro ⟨c', hc, _⟩
          cases hc; rfl
      · simp only [hp, if_false]
        refine iff_of_false not_rmatch_emp ?_
        rw [rmatch_cls_iff]
        rintro ⟨c', hc, hp'⟩
        cases hc
        exact hp hp'
  | seq r1 r2 ih1 ih2 =>
      intro c s
      simp only [deriv]
      by_cases hn : nullable r1
      · simp only [hn, if_true, rmatch_mkAlt_iff, rmatch_alt_iff, rmatch_mkSeq_iff,
          rmatch_seq_iff]
        constructor
        · rintro (⟨s1, s2, rfl, h1, h2⟩ | h)
          · exact ⟨c :: s1, s2, rfl, (ih1 c s1).mp h1, h2⟩
          · exact ⟨[], c :: s, rfl, (nullable_iff r1).mp hn, (ih2 c s).mp h⟩
        · rintro ⟨s1, s2, hs, h1, h2⟩
          cases s1 with
          | nil =>
              simp only [List.nil_append] at hs
              subst hs
              exact Or.inr ((ih2 c s).mpr h2)
          | cons c' s1' =>
              rw [List.cons_append] at hs
              injection hs with hc hs'
              subst hc; subst hs'
              exact Or.inl ⟨s1', s2, rfl, (ih1 c s1').mpr h1, h2⟩
      · rw [if_neg hn]
        simp only [rmatch_mkSeq_iff, rmatch_seq_iff]
        constructor
        · rintro ⟨s1, s2, rfl, h1, h2⟩
          exact ⟨c :: s1, s2, rfl, (ih1 c s1).mp h1, h2⟩
        · rintro ⟨s1, s2, hs, h1, h2⟩
          cases s1 with
          | nil =>
              exact absurd ((nullable_iff r1).mpr h1) (by simpa using hn)
          | cons c' s1' =>
              rw [List.cons_append] at hs
              injection hs with hc hs'
              subst hc; subst hs'
              exact ⟨s1', s2, rfl, (ih1 c s1').mpr h1, h2⟩
  | alt r1 r2 ih1 ih2 =>
      intro c s
      simp only [deriv, rmatch_mkAlt_iff, rmatch_alt_iff, ih1, ih2]
  | star r ih =>
      intro c s
      simp only [deriv, rmatch_mkSeq_iff, rmatch_seq_iff]
      constructor
      · rintro ⟨s1, s2, rfl, h1, h2⟩
        exact RMatch.starS ((ih c s1).mp h1) h2
      · intro h
        rcases rmatch_star_elim h with h0 | ⟨s1, s2, hs, hne, h1, h2⟩
        · cases h0
        · cases s1 with
          | nil => exact absurd rfl hne
          | cons c' s1' =>
              rw [List.cons_append] at hs
              injection hs with hc hs'
              subst hc; subst hs'
              exact ⟨s1', s2, rfl, (ih c s1').mpr h1, h2⟩

theorem run_iff : ∀ (s : List Char) (r : Regex), run r s = true ↔ RMatch r s := by
  intro s
  induction s with
  | nil => intro r; simpa [run] using nullable_iff r
  | cons c s ih =>
      intro r
      simp only [run]
      exact (ih (deriv r c)).trans (rmatch_deriv_iff r c s)

/-- The class of every character (used to search for a match anywhere in the
subject string, which is what JS `RegExp.prototype.test` does). -/
def anyChar : Regex := .cls (fun _ => true)

theorem rmatch_anyStar (s : List Char) : RMatch (.star anyChar) s := by
  induction s with
  | nil => exact .star0
  | cons c s ih =>
      have h1 : RMatch anyChar [c] := RMatch.cls rfl
      have h2 : RMatch (.star anyChar) ([c] ++ s) := RMatch.starS h1 ih
      exact h2

/-- `rtest r s` — does some substring of `s` match `r`?  The analogue of JS
`RegExp.prototype.test` for unanchored patterns. -/
def rtest (r : Regex) (s : List Char) : Bool :=
  run (.seq (.star anyChar) (.seq r (.star anyChar))) s

theorem rtest_iff {r : Regex} {s : List Char} :
    rtest r s = true ↔ ∃ u m v, s = u ++ m ++ v ∧ RMatch r m := by
  rw [rtest, run_iff]
  constructor
  · intro h
    rcases rmatch_seq_iff.mp h with ⟨u, rest, rfl, _, hrest⟩
    rcases rmatch_seq_iff.mp hrest with ⟨m, v, rfl, hm, _⟩
    exact ⟨u, m, v, by simp, hm⟩
  · rintro ⟨u, m, v, rfl, hm⟩
    have : u ++ m ++ v = u ++ (m ++ v) := by simp
    rw [this]
    exact RMatch.seq (rmatch_anyStar u) (RMatch.seq hm (rmatch_anyStar v))

/-- A match found inside a string is still found in any extension of that
string: `rtest` is monotone under taking superstrings. -/
theorem rtest_mono {r : Regex} {s u v : List Char} (h : rtest r s = true) :
    rtest r (u ++ s ++ v) = true := by
  rcases rtest_iff.mp h with ⟨a, m, b, rfl, hm⟩
  exact rtest_iff.mpr ⟨u ++ a, m, b ++ v, by simp, hm⟩

end Regex

namespace Signage

/-! ## Pattern-building helpers and the rulebook's regex literals

Each JS regex literal from `bpa-rules.ts` is transcribed below.  All of them
carry the `/i` flag; accordingly the subject string is case-folded by
`testI` and the literals are written in lower case. -/

/-- Single literal character. -/
def rchar (c : Char) : Regex := .cls (fun x => x == c)

/-- Literal string. -/
def rlit (s : String) : Regex := s.data.foldr (fun c r => .seq (rchar c) r) .eps

/-- Sequence of patterns. -/
def seqList (l : List Regex) : Regex := l.foldr .seq .eps

/-- `r?` — optional. -/
def ropt (r : Regex) : Regex := .alt r .eps

/-- JS `\s` (the whitespace characters relevant to ASCII subjects). -/
def isWsChar (c : Char) : Bool :=
  c == ' ' || c == '\t' || c == '\n' || c == '\r' || c == '\x0b' || c == '\x0c'

/-- `\s` as a class. -/
def wsC : Regex := .cls isWsChar

/-- `\s+`. -/
def wsPlus : Regex := .seq wsC (.star wsC)

/-- `\s*`. -/
def wsStar : Regex := .star wsC

/-- `\d`. -/
def digC : Regex := .cls Char.isDigit

/-- `\d+`. -/
def digPlus : Regex := .seq digC (.star digC)

/-- JS `.` — any character except a line terminator. -/
def dotC : Regex := .cls (fun c => !(c == '\n' || c == '\r'))

/-- `.*`. -/
def dotStar : Regex := .star dotC

/-- `[\d\s-]`. -/
def phoneC : Regex := .cls (fun c => c.isDigit || isWsChar c || c == '-')

/-- `[\d\s-]+`. -/
def phonePlus : Regex := .seq phoneC (.star phoneC)

/-- `\d{4}`. -/
def dig4 : Regex := seqList [digC, digC, digC, digC]

/-- `\d{3}`. -/
def dig3 : Regex := seqList [digC, digC, digC]

/-- `/parking\s+regulations?\s+apply/i` -/
def patParkingRegApply : Regex :=
  seqList [rlit "parking", wsPlus, rlit "regulation", ropt (rchar 's'), wsPlus, rlit "apply"]

/-- `/terms\s*&?\s*conditions?\s+apply/i` -/
def patTermsCondApply : Regex :=
  seqList [rlit "terms", wsStar, ropt (rchar '&'), wsStar, rlit "condition", ropt (rchar 's'),
    wsPlus, rlit "apply"]

/-- `/private\s+land/i` -/
def patPrivateLand : Regex := seqList [rlit "private", wsPlus, rlit "land"]

/-- `/private\s+property/i` -/
def patPrivateProperty : Regex := seqList [rlit "private", wsPlus, rlit "property"]

/-- Pattern list of the `header-statement` rule. -/
def headerPatterns : List Regex :=
  [patParkingRegApply, patTermsCondApply, patPrivateLand, patPrivateProperty]

/-- Pattern list of the `private-land-notice` rule:
`/private\s+(land|property)/i`, `/privately\s+owned/i`,
`/this\s+car\s+park\s+is\s+private/i`. -/
def privateLandPatterns : List Regex :=
  [seqList [rlit "private", wsPlus, .alt (rlit "land") (rlit "property")],
   seqList [rlit "privately", wsPlus, rlit "owned"],
   seqList [rlit "this", wsPlus, rlit "car", wsPlus, rlit "park", wsPlus, rlit "is", wsPlus,
     rlit "private"]]

/-- Pattern list of the `company-details` rule:
`/company\s+reg(istration)?\s*(no|number)?:?\s*\d+/i`, `/registered\s+in\s+england/i`. -/
def companyRegPatterns : List Regex :=
  [seqList [rlit "company", wsPlus, rlit "reg", ropt (rlit "istration"), wsStar,
     ropt (.alt (rlit "no") (rlit "number")), ropt (rchar ':'), wsStar, digPlus],
   seqList [rlit "registered", wsPlus, rlit "in", wsPlus, rlit "england"]]

/-- The single regex of the `helpline-number` rule:
`/helpline:?\s*[\d\s-]+|contact:?\s*[\d\s-]+|\d{4}\s*\d{3}\s*\d{4}/i`. -/
def patHelpline : Regex :=
  .alt (seqList [rlit "helpline", ropt (rchar ':'), wsStar, phonePlus])
    (.alt (seqList [rlit "contact", ropt (rchar ':'), wsStar, phonePlus])
      (seqList [dig4, wsStar, dig3, wsStar, dig4]))

/-- Pattern list of the `anpr-notice` rule: `/anpr/i`,
`/automatic\s+number\s+plate/i`, `/camera\s+(?:technology|monitoring|surveillance)/i`,
`/monitored\s+by\s+.*camera/i`. -/
def anprPatterns : List Regex :=
  [rlit "anpr",
   seqList [rlit "automatic", wsPlus, rlit "number", wsPlus, rlit "plate"],
   seqList [rlit "camera", wsPlus,
     .alt (rlit "technology") (.alt (rlit "monitoring") (rlit "surveillance"))],
   seqList [rlit "monitored", wsPlus, rlit "by", wsPlus, dotStar, rlit "camera"]]

/-- Pattern list of the `payment-period` rule: `/if\s+paid\s+within\s+\d+\s+days/i`,
`/reduced\s+to.*if\s+paid/i`, `/\d+\s+days/i`. -/
def paymentPeriodPatterns : List Regex :=
  [seqList [rlit "if", wsPlus, rlit "paid", wsPlus, rlit "within", wsPlus, digPlus, wsPlus,
     rlit "days"],
   seqList [rlit "reduced", wsPlus, rlit "to", dotStar, rlit "if", wsPlus, rlit "paid"],
   seqList [digPlus, wsPlus, rlit "days"]]

/-- Pattern list of the `contract-clause` rule:
`/by\s+entering\s+(or\s+remaining\s+)?on\s+this\s+land/i`,
`/you\s+agree\s+to\s+abide\s+by/i`,
`/terms\s+and\s+conditions\s+(of\s+)?signs\s+distributed/i`. -/
def contractPatterns : List Regex :=
  [seqList [rlit "by", wsPlus, rlit "entering", wsPlus,
     ropt (seqList [rlit "or", wsPlus, rlit "remaining", wsPlus]),
     rlit "on", wsPlus, rlit "this", wsPlus, rlit "land"],
   seqList [rlit "you", wsPlus, rlit "agree", wsPlus, rlit "to", wsPlus, rlit "abide", wsPlus,
     rlit "by"],
   seqList [rlit "terms", wsPlus, rlit "and", wsPlus, rlit "conditions", wsPlus,
     ropt (seqList [rlit "of", wsPlus]), rlit "signs", wsPlus, rlit "distributed"]]

/-- Pattern list of the `privacy-notice` rule: `/personal\s+data/i`,
`/privacy\s+notice/i`, `/data\s+protection/i`, `/photographs?\s+of\s+you/i`. -/
def privacyPatterns : List Regex :=
  [seqList [rlit "personal", wsPlus, rlit "data"],
   seqList [rlit "privacy", wsPlus, rlit "notice"],
   seqList [rlit "data", wsPlus, rlit "protection"],
   seqList [rlit "photograph", ropt (rchar 's'), wsPlus, rlit "of", wsPlus, rlit "you"]]

/-- Pattern list of the `debt-recovery-notice` rule: `/debt\s+recovery/i`,
`/non-?payment\s+will\s+result/i`, `/collection\s+fees?/i`. -/
def debtPatterns : List Regex :=
  [seqList [rlit "debt", wsPlus, rlit "recovery"],
   seqList [rlit "non", ropt (rchar '-'), rlit "payment", wsPlus, rlit "will", wsPlus,
     rlit "result"],
   seqList [rlit "collection", wsPlus, rlit "fee", ropt (rchar 's')]]

/-- Pattern list of the `vehicles-at-risk` rule:
`/vehicles?\s+left\s+at\s+owners?\s*'?\s*risk/i`, `/park\s+at\s+(your\s+)?own\s+risk/i`. -/
def vehiclesRiskPatterns : List Regex :=
  [seqList [rlit "vehicle", ropt (rchar 's'), wsPlus, rlit "left", wsPlus, rlit "at", wsPlus,
     rlit "owner", ropt (rchar 's'), wsStar, ropt (rchar '\u0027'), wsStar, rlit "risk"],
   seqList [rlit "park", wsPlus, rlit "at", wsPlus, ropt (seqList [rlit "your", wsPlus]),
     rlit "own", wsPlus, rlit "risk"]]

/-- Pattern list of the `website-reference` rule: `/www\./i`, `/https?:\/\//i`,
`/\.com|\.co\.uk/i`. -/
def websitePatterns : List Regex :=
  [rlit "www.",
   seqList [rlit "http", ropt (rchar 's'), rlit "://"],
   .alt (rlit ".com") (rlit ".co.uk")]

/-- JS `pattern.test(subject)` for an `/i`-flagged pattern: case-fold the
subject and search for a match anywhere in it. -/
def testI (r : Regex) (s : String) : Bool := Regex.rtest r (s.data.map Char.toLower)

/-! ## Data model — the interfaces of `bpa-rules.ts`

`SignMetadata`'s fields are all modelled as `Option`: TypeScript's typing is
erased at runtime and the engine is documented to cope with signs whose
metadata fields are missing (`undefined`).  Fields never read by the modelled
code (`message`/`suggestion` strings, colours, alignment, font family,
position rectangles) are elided. -/

inductive SignType where
  | entrance
  | terms_conditions
  | tariff
  | disabled
  | ev_charging
  | internal
  | wayfinding
deriving DecidableEq

inductive ElementType where
  | text
  | image
  | qr
  | logo
  | icon
  | border
deriving DecidableEq

/-- `ElementStyle` (only `fontSize` is ever read by the rulebook). -/
structure ElementStyle where
  fontSize : Option Nat
deriving DecidableEq

structure SignElement where
  id : String
  type : ElementType
  content : String
  style : ElementStyle
deriving DecidableEq

structure SignMetadata where
  siteName : Option String
  siteCode : Option String
  companyName : Option String
  companyRegNumber : Option String
  helplineNumber : Option String
  parkingCharge : Option Nat
  reducedCharge : Option Nat
  paymentPeriod : Option Nat
  reducedPeriod : Option Nat
  hasAnpr : Option Bool
  website : Option String
deriving DecidableEq

structure Sign where
  id : String
  reference : String
  type : SignType
  site : String
  elements : List SignElement
  metadata : SignMetadata
deriving DecidableEq

inductive RuleCategory where
  | required
  | recommended
  | warning
deriving DecidableEq

/-- A rulebook entry (name/description elided; `check` returns the `passed`
field of the source's `ComplianceResult`). -/
structure ComplianceRule where
  id : String
  category : RuleCategory
  signTypes : List SignType
  check : Sign → Bool

-- BPA maximum amounts (2024)
def BPA_MAX_PARKING_CHARGE : Nat := 100
def BPA_MAX_REDUCED_CHARGE : Nat := 60
def BPA_REDUCED_PERIOD_DAYS : Nat := 14
def BPA_TOTAL_PERIOD_DAYS : Nat := 28
def BPA_DEBT_RECOVERY_FEE : Nat := 70

-- Minimum font sizes for legibility
def MIN_HEADER_FONT_SIZE : Nat := 48
def MIN_BODY_FONT_SIZE : Nat := 14
def MIN_SMALL_FONT_SIZE : Nat := 10

/-- `sign.elements.filter(e => e.type === 'text')` — the idiom shared by every
text rule. -/
def textElements (sign : Sign) : List SignElement :=
  sign.elements.filter (fun e => decide (e.type = .text))

/-- `textElements.some(el => patterns.some(pattern => pattern.test(el.content)))`
— the per-element pattern check shared by every text rule of the library
engine. -/
def anyTextMatches (pats : List Regex) (sign : Sign) : Bool :=
  (textElements sign).any (fun el => pats.any (fun p => testI p el.content))

/-- JS `String.prototype.includes` (case-sensitive substring test). -/
def containsSub : List Char → List Char → Bool
  | [], pat => pat.isEmpty
  | c :: rest, pat => pat.isPrefixOf (c :: rest) || containsSub rest pat

def strIncludes (hay pat : String) : Bool := containsSub hay.data pat.data

/-- JS `String.prototype.toLowerCase` (ASCII folding suffices here). -/
def toLowerStr (s : String) : String := String.mk (s.data.map Char.toLower)

/-! ## The BPA rulebook (`BPA_RULES`), in source order. -/

def headerStatementRule : ComplianceRule :=
  { id := "header-statement", category := .required,
    signTypes := [.entrance, .terms_conditions, .tariff],
    check := fun sign => anyTextMatches headerPatterns sign }

def privateLandNoticeRule : ComplianceRule :=
  { id := "private-land-notice", category := .required,
    signTypes := [.entrance, .terms_conditions],
    check := fun sign => anyTextMatches privateLandPatterns sign }

/-- `sign.elements.some(el => el.type === 'logo' && el.content.toLowerCase().includes('bpa'))` -/
def bpaLogoRule : ComplianceRule :=
  { id := "bpa-logo", category := .required,
    signTypes := [.entrance, .terms_conditions],
    check := fun sign => sign.elements.any (fun el =>
      decide (el.type = .logo) && strIncludes (toLowerStr el.content) "bpa") }

/-- Passes iff some text matches the registration regexes AND
`sign.metadata.companyName` is truthy and a substring of some text element. -/
def companyDetailsRule : ComplianceRule :=
  { id := "company-details", category := .required,
    signTypes := [.entrance, .terms_conditions],
    check := fun sign =>
      let hasCompanyReg := anyTextMatches companyRegPatterns sign
      let hasCompanyName :=
        match sign.metadata.companyName with
        | some n => !(n == "") && (textElements sign).any (fun el => strIncludes el.content n)
        | none => false
      hasCompanyReg && hasCompanyName }

def helplineNumberRule : ComplianceRule :=
  { id := "helpline-number", category := .required,
    signTypes := [.entrance, .terms_conditions],
    check := fun sign => (textElements sign).any (fun el => testI patHelpline el.content) }

/-- `if (!sign.metadata.hasAnpr) return { passed: true, ... }` — a missing or
false flag auto-passes. -/
def anprNoticeRule : ComplianceRule :=
  { id := "anpr-notice", category := .required,
    signTypes := [.entrance, .terms_conditions],
    check := fun sign =>
      match sign.metadata.hasAnpr with
      | some true => anyTextMatches anprPatterns sign
      | _ => true }

/-- `if (!charge) fail; passed = charge <= BPA_MAX_PARKING_CHARGE` — a missing
or zero (falsy) charge fails. -/
def parkingChargeAmountRule : ComplianceRule :=
  { id := "parking-charge-amount", category := .required,
    signTypes := [.terms_conditions],
    check := fun sign =>
      match sign.metadata.parkingCharge with
      | none => false
      | some c => if c = 0 then false else decide (c ≤ BPA_MAX_PARKING_CHARGE) }

def reducedChargeAmountRule : ComplianceRule :=
  { id := "reduced-charge-amount", category := .required,
    signTypes := [.terms_conditions],
    check := fun sign =>
      match sign.metadata.reducedCharge with
      | none => false
      | some c => if c = 0 then false else decide (c ≤ BPA_MAX_REDUCED_CHARGE) }

def paymentPeriodRule : ComplianceRule :=
  { id := "payment-period", category := .required,
    signTypes := [.terms_conditions],
    check := fun sign => anyTextMatches paymentPeriodPatterns sign }

def contractClauseRule : ComplianceRule :=
  { id := "contract-clause", category := .required,
    signTypes := [.terms_conditions],
    check := fun sign => anyTextMatches contractPatterns sign }

def privacyNoticeRule : ComplianceRule :=
  { id := "privacy-notice", category := .required,
    signTypes := [.terms_conditions],
    check := fun sign => anyTextMatches privacyPatterns sign }

def debtRecoveryNoticeRule : ComplianceRule :=
  { id := "debt-recovery-notice", category := .required,
    signTypes := [.terms_conditions],
    check := fun sign => anyTextMatches debtPatterns sign }

def vehiclesAtRiskRule : ComplianceRule :=
  { id := "vehicles-at-risk", category := .recommended,
    signTypes := [.entrance, .terms_conditions],
    check := fun sign => anyTextMatches vehiclesRiskPatterns sign }

/-- A `logo` element whose content does NOT mention "bpa". -/
def companyLogoRule : ComplianceRule :=
  { id := "company-logo", category := .recommended,
    signTypes := [.entrance, .terms_conditions],
    check := fun sign => sign.elements.any (fun el =>
      decide (el.type = .logo) && !(strIncludes (toLowerStr el.content) "bpa")) }

def websiteReferenceRule : ComplianceRule :=
  { id := "website-reference", category := .recommended,
    signTypes := [.terms_conditions],
    check := fun sign => anyTextMatches websitePatterns sign }

/-- Text elements with a truthy `fontSize` below `MIN_SMALL_FONT_SIZE`; passes
iff there are none. -/
def fontSizeLegibilityRule : ComplianceRule :=
  { id := "font-size-legibility", category := .warning,
    signTypes := [.entrance, .terms_conditions, .tariff, .disabled, .ev_charging, .internal,
      .wayfinding],
    check := fun sign =>
      let smallTextElements := sign.elements.filter (fun e =>
        decide (e.type = .text) &&
          (match e.style.fontSize with
           | some f => !(f == 0) && decide (f < MIN_SMALL_FONT_SIZE)
           | none => false))
      decide (smallTextElements.length = 0) }

def borderVisibilityRule : ComplianceRule :=
  { id := "border-visibility", category := .warning,
    signTypes := [.entrance, .terms_conditions, .tariff],
    check := fun sign => sign.elements.any (fun el => decide (el.type = .border)) }

def BPA_RULES : List ComplianceRule :=
  [headerStatementRule, privateLandNoticeRule, bpaLogoRule, companyDetailsRule,
   helplineNumberRule, anprNoticeRule, parkingChargeAmountRule, reducedChargeAmountRule,
   paymentPeriodRule, contractClauseRule, privacyNoticeRule, debtRecoveryNoticeRule,
   vehiclesAtRiskRule, companyLogoRule, websiteReferenceRule,
   fontSizeLegibilityRule, borderVisibilityRule]

/-! ## The evaluator (`checkCompliance`). -/

/-- One entry of the report's `results` array (the source spreads the rule's
fields next to its `result`; modelled as a pair of the rule and the `passed`
bit of the result). -/
structure RuleOutcome where
  rule : ComplianceRule
  result : Bool

structure ComplianceSummary where
  passed : Nat
  failed : Nat
  warnings : Nat
deriving DecidableEq

structure ComplianceReport where
  compliant : Bool
  score : ℤ
  results : List RuleOutcome
  summary : ComplianceSummary

/-- The library engine's `checkCompliance` (`bpa-rules.ts`).  `Math.round` over
exact rationals is Mathlib's `round` (half-up); `.includes` on the
applicability array is list membership. -/
def checkCompliance (sign : Sign) : ComplianceReport :=
  let applicableRules := BPA_RULES.filter (fun rule => decide (sign.type ∈ rule.signTypes))
  let results := applicableRules.map (fun rule => RuleOutcome.mk rule (rule.check sign))
  let requiredResults := results.filter (fun r => decide (r.rule.category = .required))
  let allRequiredPassed := requiredResults.all (fun r => r.result)
  let passed := (results.filter (fun r => r.result)).length
  let failed := (results.filter (fun r => !r.result && decide (r.rule.category = .required))).length
  let warnings :=
    (results.filter (fun r => !r.result && !decide (r.rule.category = .required))).length
  { compliant := allRequiredPassed,
    score := round (((passed : ℚ) / (results.length : ℚ)) * 100),
    results := results,
    summary := { passed := passed, failed := failed, warnings := warnings } }

/-- `getRulesForSignType` (`bpa-rules.ts`). -/
def getRulesForSignType (type : SignType) : List ComplianceRule :=
  BPA_RULES.filter (fun rule => decide (type ∈ rule.signTypes))


/-! ## `server.js` — `getSignText`, the standalone engine's text convention. -/

/-- JS `array.join(' ')`, at the character level. -/
def joinSp : List (List Char) → List Char
  | [] => []
  | [x] => x
  | x :: y :: xs => x ++ ' ' :: joinSp (y :: xs)

/-- `server.js` `getSignText`:
`sign.elements?.filter(e => e.type === 'text').map(e => e.content).join(' ') || ''`
(the same filter as `textElements`). -/
def getSignText (sign : Sign) : String :=
  String.mk (joinSp ((textElements sign).map (fun e => e.content.data)))

/-! ## `sign-templates.ts` — reference generation. -/

/-- `String.prototype.padStart(3, '0')`. -/
def padStart3 (s : String) : String :=
  String.mk (List.replicate (3 - s.data.length) '0' ++ s.data)

/-- The fixed type→code table of `getTypeCode`. -/
def typeCodes : List (String × String) :=
  [("entrance", "ENT"), ("terms_conditions", "TCS"), ("tariff", "TAR"), ("disabled", "DIS"),
   ("ev_charging", "EVC"), ("internal", "INT"), ("wayfinding", "WAY")]

/-- `codes[type] || 'GEN'`.  The runtime accepts arbitrary type strings
(TypeScript's union type is erased and the JS copy in `server.js` passes any
string), so the lookup is modelled over `String`. -/
def getTypeCode (type : String) : String := (typeCodes.lookup type).getD "GEN"

/-- `generateSignReference`.  The source interpolates `siteCode` verbatim —
there is no `toUpperCase` call. -/
def generateSignReference (siteCode : String) (type : String) (sequence : Nat)
    (version : Nat) : String :=
  siteCode ++ "-" ++ getTypeCode type ++ "-" ++ padStart3 (toString sequence) ++ "-v" ++
    toString version

/-- The runtime string carried by a `SignType` value. -/
def SignType.toStr : SignType → String
  | .entrance => "entrance"
  | .terms_conditions => "terms_conditions"
  | .tariff => "tariff"
  | .disabled => "disabled"
  | .ev_charging => "ev_charging"
  | .internal => "internal"
  | .wayfinding => "wayfinding"

/-! ## `sign-templates.ts` — template instantiation. -/

/-- A template element: `Omit<SignElement, 'id'>`. -/
structure TemplateElement where
  type : ElementType
  content : String
  style : ElementStyle

/-- A catalogue entry (name/description/thumbnail elided). -/
structure SignTemplate where
  id : String
  type : SignType
  elements : List TemplateElement
  defaultMetadata : SignMetadata

/-- The all-absent metadata record (JS `{}` / all fields `undefined`). -/
def noMetadata : SignMetadata :=
  { siteName := none, siteCode := none, companyName := none, companyRegNumber := none,
    helplineNumber := none, parkingCharge := none, reducedCharge := none, paymentPeriod := none,
    reducedPeriod := none, hasAnpr := none, website := none }

/-- ECMAScript `GetSubstitution` for a string replacement value, specialised
to the regexes produced here: the compiled key patterns have no capture
groups and no named groups, so a dollar followed by a digit (no such group)
or by `<` (namedCaptures undefined) stays literal text, and only the escapes
dollar-dollar, dollar-ampersand (the matched text), dollar-backquote (the
part of the subject before the match) and dollar-quote (the part after the
match) are interpreted.  A dollar with no valid escape after it is literal
and scanning resumes at the next character. -/
def getSubstitution (matched before after : List Char) : List Char → List Char
  | [] => []
  | [c] => [c]
  | c :: d :: t =>
      if c = '$' then
        if d = '$' then '$' :: getSubstitution matched before after t
        else if d = '&' then matched ++ getSubstitution matched before after t
        else if d = '\u0060' then before ++ getSubstitution matched before after t
        else if d = '\u0027' then after ++ getSubstitution matched before after t
        else '$' :: getSubstitution matched before after (d :: t)
      else c :: getSubstitution matched before after (d :: t)

/-- One global replacement pass: JS
`content.replace(new RegExp(key, 'g'), value)` — the keys' braces are not
valid quantifiers, so the regex matches the literal key, left to right,
non-overlapping; each match inserts `value` expanded by `getSubstitution`,
whose before/after parts refer to the original subject around the match
position (tracked by the `done` accumulator of already-consumed characters).
Fuel-indexed so that the kernel can evaluate it; `fuel ≥ s.length` suffices
since every step consumes at least one character. -/
def replaceAllFuel (pat rep : List Char) : Nat → List Char → List Char → List Char
  | _, _, [] => []
  | 0, _, s => s
  | n + 1, done, c :: rest =>
      if pat.isPrefixOf (c :: rest) then
        getSubstitution pat done ((c :: rest).drop pat.length) rep ++
          replaceAllFuel pat rep n (done ++ pat) (rest.drop (pat.length - 1))
      else c :: replaceAllFuel pat rep n (done ++ [c]) rest

def jsReplaceAll (s pat rep : String) : String :=
  String.mk (replaceAllFuel pat.data rep.data s.data.length [] s.data)

/-- JS `x || default` for an optional string (`""` is falsy). -/
def strOr (x : Option String) (d : String) : String :=
  match x with
  | some s => if s = "" then d else s
  | none => d

/-- JS `(x || default).toString()` for an optional number (`0` is falsy). -/
def numOr (x : Option Nat) (d : Nat) : String :=
  toString (match x with
    | some n => if n = 0 then d else n
    | none => d)

/-- The `replacements` table of `replaceTemplateVariables`, in source order. -/
def replacements (metadata : SignMetadata) : List (String × String) :=
  [("\x7b\x7bsiteName\x7d\x7d", strOr metadata.siteName ""),
   ("\x7b\x7bsiteCode\x7d\x7d", strOr metadata.siteCode ""),
   ("\x7b\x7bcompanyName\x7d\x7d", strOr metadata.companyName "Local Car Park Management Ltd"),
   ("\x7b\x7bcompanyRegNumber\x7d\x7d", strOr metadata.companyRegNumber "14379954"),
   ("\x7b\x7bhelplineNumber\x7d\x7d", strOr metadata.helplineNumber "0345 548 1716"),
   ("\x7b\x7bparkingCharge\x7d\x7d", numOr metadata.parkingCharge 100),
   ("\x7b\x7breducedCharge\x7d\x7d", numOr metadata.reducedCharge 60),
   ("\x7b\x7bpaymentPeriod\x7d\x7d", numOr metadata.paymentPeriod 28),
   ("\x7b\x7breducedPeriod\x7d\x7d", numOr metadata.reducedPeriod 14),
   ("\x7b\x7bwebsite\x7d\x7d", strOr metadata.website "www.localcarparkmanagement.com")]

/-- `replaceTemplateVariables`: fold the table over the content. -/
def replaceTemplateVariables (content : String) (metadata : SignMetadata) : String :=
  (replacements metadata).foldl (fun result kv => jsReplaceAll result kv.1 kv.2) content

/-- `{ ...template.defaultMetadata, ...metadata }` — a field present in
`metadata` wins, otherwise the template default is kept. -/
def mergeMetadata (d m : SignMetadata) : SignMetadata :=
  { siteName := m.siteName.orElse (fun _ => d.siteName),
    siteCode := m.siteCode.orElse (fun _ => d.siteCode),
    companyName := m.companyName.orElse (fun _ => d.companyName),
    companyRegNumber := m.companyRegNumber.orElse (fun _ => d.companyRegNumber),
    helplineNumber := m.helplineNumber.orElse (fun _ => d.helplineNumber),
    parkingCharge := m.parkingCharge.orElse (fun _ => d.parkingCharge),
    reducedCharge := m.reducedCharge.orElse (fun _ => d.reducedCharge),
    paymentPeriod := m.paymentPeriod.orElse (fun _ => d.paymentPeriod),
    reducedPeriod := m.reducedPeriod.orElse (fun _ => d.reducedPeriod),
    hasAnpr := m.hasAnpr.orElse (fun _ => d.hasAnpr),
    website := m.website.orElse (fun _ => d.website) }


/-! ## The static template catalogue (`SIGN_TEMPLATES`).

Elements are transcribed as (type, content, fontSize); ids are absent by
construction (`Omit<SignElement, 'id'>`).  `{{` / `}}` appear in content
strings exactly as in the source. -/

def entranceStandardTemplate : SignTemplate :=
  { id := "entrance-standard", type := .entrance,
    defaultMetadata := { noMetadata with hasAnpr := some true },
    elements :=
      [{ type := .border, content := "checkered-orange-blue", style := { fontSize := none } },
       { type := .text, content := "PARKING REGULATIONS APPLY", style := { fontSize := some 32 } },
       { type := .text, content := "PRIVATE LAND", style := { fontSize := some 48 } },
       { type := .text, content := "Pay to Park for All Vehicles",
         style := { fontSize := some 28 } },
       { type := .text, content := "BEYOND THIS POINT ONLY", style := { fontSize := some 24 } },
       { type := .text,
         content := "Parking for Validated\nPark & Fly Customers\n&\nElectric Vehicles Only\n(whilst charging)",
         style := { fontSize := some 24 } },
       { type := .text, content := "Terms & Conditions Apply", style := { fontSize := some 22 } },
       { type := .text, content := "See signs in car park for details",
         style := { fontSize := some 18 } },
       { type := .text, content := "This car park is monitored by ANPR camera technology",
         style := { fontSize := some 14 } },
       { type := .text, content := "", style := { fontSize := none } },
       { type := .icon, content := "camera-anpr", style := { fontSize := none } },
       { type := .text,
         content := "This car park is private property and is managed on\nbehalf of the Client by Local Car Park Management\nLtd (registered in England & Wales).\nCompany registration no: \x7b\x7bcompanyRegNumber\x7d\x7d\nVehicles left at Owners risk.\nHelpline: \x7b\x7bhelplineNumber\x7d\x7d",
         style := { fontSize := some 11 } },
       { type := .logo, content := "bpa-approved-operator", style := { fontSize := none } },
       { type := .logo, content := "lcpm-logo", style := { fontSize := none } }] }

def termsConditionsStandardTemplate : SignTemplate :=
  { id := "terms-conditions-standard", type := .terms_conditions,
    defaultMetadata :=
      { noMetadata with
          hasAnpr := some true,
          parkingCharge := some 100,
          reducedCharge := some 60,
          paymentPeriod := some 28,
          reducedPeriod := some 14 },
    elements :=
      [{ type := .border, content := "checkered-orange-blue", style := { fontSize := none } },
       { type := .text, content := "Terms & Conditions Apply", style := { fontSize := some 36 } },
       { type := .text, content := "Pay to Park Open to Public",
         style := { fontSize := some 28 } },
       { type := .icon, content := "qr-stopwatch", style := { fontSize := none } },
       { type := .icon, content := "pay-to-park", style := { fontSize := none } },
       { type := .icon, content := "phone-keypad", style := { fontSize := none } },
       { type := .text, content := "Maximum Parking Time\nConfirmed via QR Code.",
         style := { fontSize := some 10 } },
       { type := .text, content := "ALL vehicles\nmust\nPay to Park",
         style := { fontSize := some 10 } },
       { type := .text,
         content := "Motorists must enter their full and\ncorrect vehicle registration\nnumber when making payment for\nparking.",
         style := { fontSize := some 10 } },
       { type := .text,
         content := "Breach of ANY term or condition will result in the driver being liable for a PARKING\nCHARGE of £\x7b\x7bparkingCharge\x7d\x7d reduced to £\x7b\x7breducedCharge\x7d\x7d\nif paid within \x7b\x7breducedPeriod\x7d\x7d days.",
         style := { fontSize := some 14 } },
       { type := .text,
         content := "By entering or remaining on this land you agree to abide by the Terms and Conditions of\nSigns Distributed Throughout the Car Park.",
         style := { fontSize := some 12 } },
       { type := .text,
         content := "Parking charges are to be paid within \x7b\x7bpaymentPeriod\x7d\x7d days. Additional parking charges apply for each 24-hour period, or part thereof, that the vehicle remains in breach or if it returns at any time. Terms and conditions apply 24 hours a day, all year round. Non-payment will result in a debt recovery fee of £70 being added to the value of the parking charge. The driver shall be liable for any outstanding charges, collection fees, interest, and costs on an indemnity basis. Where any statutory basis exists for any monies due under this contract to be recovered from anyone other than the driver, they too shall be recoverable on an indemnity basis. We are not liable for any loss or damage howsoever caused to any person or property whilst on this site save under any statutory exceptions.",
         style := { fontSize := some 9 } },
       { type := .text, content := "Your Personal Data", style := { fontSize := some 11 } },
       { type := .text,
         content := "Personal data in the form of registration number, photographs of you and your vehicle may be obtained to ensure compliance with your obligations when entering on to this land. Automatic Number Plate Recognition will be in use. The data may be retained for enforcement purposes. Where a parking charge becomes due an application may be made to the DVLA for the keeper\u0027s details to allow notices to be sent through the post.",
         style := { fontSize := some 9 } },
       { type := .text,
         content := "Our full Privacy Notice can be found by visiting: \x7b\x7bwebsite\x7d\x7d",
         style := { fontSize := some 9 } },
       { type := .text, content := "Monitored by ANPR cameras", style := { fontSize := some 14 } },
       { type := .text, content := "", style := { fontSize := none } },
       { type := .icon, content := "camera-anpr", style := { fontSize := none } },
       { type := .text,
         content := "This car park is private property and is managed by\nLocal Car Park Management Ltd (registered in\nEngland & Wales) on behalf of the Client.\nVehicles left at Owners risk.\nHelpline: \x7b\x7bhelplineNumber\x7d\x7d\nCompany registration no: \x7b\x7bcompanyRegNumber\x7d\x7d",
         style := { fontSize := some 10 } },
       { type := .logo, content := "bpa-approved-operator", style := { fontSize := none } },
       { type := .logo, content := "lcpm-logo", style := { fontSize := none } }] }

def disabledParkingTemplate : SignTemplate :=
  { id := "disabled-parking", type := .disabled,
    defaultMetadata := { noMetadata with hasAnpr := some true },
    elements :=
      [{ type := .border, content := "checkered-orange-blue", style := { fontSize := none } },
       { type := .text, content := "DISABLED PARKING ONLY", style := { fontSize := some 36 } },
       { type := .icon, content := "disabled-symbol", style := { fontSize := none } },
       { type := .text, content := "Blue Badge Holders Only", style := { fontSize := some 24 } },
       { type := .text, content := "Badge must be displayed", style := { fontSize := some 18 } },
       { type := .text, content := "", style := { fontSize := none } },
       { type := .logo, content := "bpa-approved-operator", style := { fontSize := none } },
       { type := .logo, content := "lcpm-logo", style := { fontSize := none } }] }

def evChargingTemplate : SignTemplate :=
  { id := "ev-charging", type := .ev_charging,
    defaultMetadata := { noMetadata with hasAnpr := some true },
    elements :=
      [{ type := .border, content := "checkered-orange-blue", style := { fontSize := none } },
       { type := .text, content := "ELECTRIC VEHICLE", style := { fontSize := some 32 } },
       { type := .text, content := "CHARGING ONLY", style := { fontSize := some 32 } },
       { type := .icon, content := "ev-charging", style := { fontSize := none } },
       { type := .text, content := "Actively Drawing a Charge", style := { fontSize := some 24 } },
       { type := .text, content := "Vehicles not charging will receive a\nParking Charge Notice",
         style := { fontSize := some 16 } },
       { type := .text, content := "", style := { fontSize := none } },
       { type := .logo, content := "bpa-approved-operator", style := { fontSize := none } },
       { type := .logo, content := "lcpm-logo", style := { fontSize := none } }] }

def tariffStandardTemplate : SignTemplate :=
  { id := "tariff-standard", type := .tariff,
    defaultMetadata := { noMetadata with hasAnpr := some true },
    elements :=
      [{ type := .border, content := "checkered-orange-blue", style := { fontSize := none } },
       { type := .text, content := "PARKING TARIFFS APPLY", style := { fontSize := some 32 } },
       { type := .text, content := "via \x7b\x7bpaymentMethod\x7d\x7d",
         style := { fontSize := some 24 } },
       { type := .qr, content := "\x7b\x7bpaymentUrl\x7d\x7d", style := { fontSize := none } },
       { type := .text, content := "\x7b\x7btariffTable\x7d\x7d", style := { fontSize := some 14 } },
       { type := .text, content := "", style := { fontSize := none } },
       { type := .logo, content := "bpa-approved-operator", style := { fontSize := none } },
       { type := .logo, content := "lcpm-logo", style := { fontSize := none } }] }

def internalQrTemplate : SignTemplate :=
  { id := "internal-qr", type := .internal,
    defaultMetadata := noMetadata,
    elements :=
      [{ type := .border, content := "checkered-orange-blue", style := { fontSize := none } },
       { type := .text, content := "SCAN TO PAY", style := { fontSize := some 28 } },
       { type := .qr, content := "\x7b\x7bpaymentUrl\x7d\x7d", style := { fontSize := none } },
       { type := .text, content := "Location Code: \x7b\x7blocationCode\x7d\x7d",
         style := { fontSize := some 14 } },
       { type := .logo, content := "lcpm-logo", style := { fontSize := none } }] }

def SIGN_TEMPLATES : List SignTemplate :=
  [entranceStandardTemplate, termsConditionsStandardTemplate, disabledParkingTemplate,
   evChargingTemplate, tariffStandardTemplate, internalQrTemplate]

/-- `getTemplate` (`SIGN_TEMPLATES.find(t => t.id === templateId)`). -/
def getTemplate (templateId : String) : Option SignTemplate :=
  SIGN_TEMPLATES.find? (fun t => decide (t.id = templateId))

/-- `getTemplatesByType`. -/
def getTemplatesByType (type : SignType) : List SignTemplate :=
  SIGN_TEMPLATES.filter (fun t => decide (t.type = type))

/-- `createSignFromTemplate`.  The source throws on an unknown template id —
modelled as `none`.  `uuidv4()` calls are modelled by the supply `freshId`,
consumed in source order: one per element, then one for the sign itself. -/
def createSignFromTemplate (templateId : String) (metadata : SignMetadata) (siteCode : String)
    (sequence : Nat) (freshId : Nat → String) : Option Sign :=
  match getTemplate templateId with
  | none => none
  | some template =>
      let reference := generateSignReference siteCode template.type.toStr sequence 1
      let processedElements : List SignElement := template.elements.enum.map (fun ie =>
        { id := freshId ie.1, type := ie.2.type,
          content := replaceTemplateVariables ie.2.content metadata, style := ie.2.style })
      some { id := freshId template.elements.length, reference := reference,
             type := template.type, site := siteCode, elements := processedElements,
             metadata := mergeMetadata template.defaultMetadata metadata }


/-! ## Helper lemmas. -/

/-- `containsSub` decides the infix (substring) relation. -/
theorem containsSub_iff {hay pat : List Char} : containsSub hay pat = true ↔ pat <:+: hay := by
  induction hay with
  | nil =>
      simp only [containsSub, List.isEmpty_iff]
      constructor
      · rintro rfl; exact List.infix_refl []
      · intro h; exact List.eq_nil_of_infix_nil h
  | cons c rest ih =>
      simp only [containsSub, Bool.or_eq_true, ih, List.isPrefixOf_iff_prefix]
      constructor
      · rintro (h | h)
        · exact h.isInfix
        · exact List.infix_cons h
      · intro h
        rcases h with ⟨u, v, huv⟩
        cases u with
        | nil => exact Or.inl ⟨v, by simpa using huv⟩
        | cons c' u' =>
            right
            rw [List.cons_append, List.cons_append] at huv
            injection huv with _ huv'
            exact ⟨u', v, huv'⟩

/-- A replacement pass whose pattern does not occur leaves the string
untouched (any fuel, any already-consumed prefix). -/
theorem replaceAllFuel_of_not_contains :
    ∀ (s : List Char) (n : Nat) (done pat rep : List Char), containsSub s pat = false →
      replaceAllFuel pat rep n done s = s := by
  intro s
  induction s with
  | nil => intro n done pat rep _; cases n <;> rfl
  | cons c rest ih =>
      intro n done pat rep h
      simp only [containsSub, Bool.or_eq_false_iff] at h
      cases n with
      | zero => rfl
      | succ n =>
          simp only [replaceAllFuel]
          rw [if_neg (by simp [h.1]), ih n (done ++ [c]) pat rep h.2]

theorem jsReplaceAll_of_not_contains {s pat rep : String}
    (h : containsSub s.data pat.data = false) : jsReplaceAll s pat rep = s := by
  unfold jsReplaceAll
  rw [replaceAllFuel_of_not_contains s.data s.data.length [] pat.data rep.data h]

/-- Replacing the whole string (content = pattern) yields the replacement
expanded by `getSubstitution` with the matched text being the pattern and
empty context on both sides. -/
theorem jsReplaceAll_self {pat rep : String} (h : pat.data ≠ []) :
    jsReplaceAll pat pat rep = String.mk (getSubstitution pat.data [] [] rep.data) := by
  unfold jsReplaceAll
  rcases hp : pat.data with _ | ⟨c, rest⟩
  · exact absurd hp h
  · simp only [hp, List.length_cons, replaceAllFuel,
      List.isPrefixOf_iff_prefix.mpr (List.prefix_refl _), if_true]
    rw [show rest.length + 1 - 1 = rest.length from rfl, List.drop_length,
      show (c :: rest).drop (rest.length + 1) = [] from List.drop_length _]
    cases rest <;> simp [replaceAllFuel]

/-- A replacement value free of dollars is inserted literally. -/
theorem getSubstitution_of_no_dollar {matched before after : List Char} :
    ∀ {rep : List Char}, containsSub rep ['$'] = false →
      getSubstitution matched before after rep = rep := by
  intro rep
  induction rep with
  | nil => intro _; rfl
  | cons c t ih =>
      intro h
      simp only [containsSub, Bool.or_eq_false_iff] at h
      have hc : ¬ c = '$' := by
        intro hc
        subst hc
        simp [List.isPrefixOf] at h
      cases t with
      | nil => rfl
      | cons d t' =>
          simp only [getSubstitution]
          rw [if_neg hc, ih h.2]

/-- Folding replacement passes whose patterns never occur is the identity. -/
theorem foldl_jsReplaceAll_id :
    ∀ (l : List (String × String)) (content : String),
      (∀ kv ∈ l, containsSub content.data kv.1.data = false) →
      l.foldl (fun result kv => jsReplaceAll result kv.1 kv.2) content = content := by
  intro l
  induction l with
  | nil => intro content _; rfl
  | cons a t ih =>
      intro content h
      simp only [List.foldl_cons]
      rw [jsReplaceAll_of_not_contains (h a (List.mem_cons_self a t))]
      exact ih content (fun kv hkv => h kv (List.mem_cons_of_mem a hkv))

/-- If the braces `{{` do not occur in `v`, no placeholder key occurs in `v`. -/
theorem containsSub_false_of_braces {v key br : List Char} (hpre : br <+: key)
    (h : containsSub v br = false) : containsSub v key = false := by
  by_contra hc
  rw [Bool.not_eq_false, containsSub_iff] at hc
  rw [← Bool.not_eq_true, containsSub_iff] at h
  exact h (hpre.isInfix.trans hc)

/-- Membership in a list gives an infix of the space-joined concatenation. -/
theorem mem_joinSp_infix : ∀ {x : List Char} {l : List (List Char)}, x ∈ l → x <:+: joinSp l := by
  intro x l
  induction l with
  | nil => intro h; cases h
  | cons a t ih =>
      intro hx
      rcases List.mem_cons.mp hx with rfl | hx'
      · cases t with
        | nil => exact List.infix_refl x
        | cons b t' => exact ((List.prefix_append x (' ' :: joinSp (b :: t')))).isInfix
      · cases t with
        | nil => cases hx'
        | cons b t' =>
            have h1 : x <:+: joinSp (b :: t') := ih hx'
            have h2 : x <:+: ' ' :: joinSp (b :: t') := List.infix_cons h1
            rcases h2 with ⟨u, v, huv⟩
            refine ⟨a ++ u, v, ?_⟩
            have hj : joinSp (a :: b :: t') = a ++ ' ' :: joinSp (b :: t') := rfl
            rw [hj, ← huv]
            simp

/-- `testI` is monotone under the substring relation on subjects. -/
theorem testI_mono {p : Regex} {s t : String} (h : s.data <:+: t.data)
    (ht : testI p s = true) : testI p t = true := by
  rcases h with ⟨u, v, huv⟩
  unfold testI at *
  rw [← huv, List.map_append, List.map_append]
  exact Regex.rtest_mono ht

/-- The report's score, unfolded (definitional). -/
theorem checkCompliance_score (sign : Sign) :
    (checkCompliance sign).score =
      round ((((checkCompliance sign).summary.passed : ℚ) /
        ((checkCompliance sign).results.length : ℚ)) * 100) := rfl


/-! ## Concrete signs used by the claim theorems. -/

/-- The exact text of the spec's §8 end-to-end example. -/
def c1text : String := "PARKING REGULATIONS APPLY. PRIVATE LAND. By entering or remaining on this land you agree... Company registration no: 14379954. Helpline: 0345 548 1716. Personal data may be collected. Non-payment will result in debt recovery. Reduced to £60 if paid within 14 days."

/-- The §8 example's metadata:
`{parkingCharge:100, reducedCharge:60, companyName:"Local Car Park Management Ltd", hasAnpr:false}`. -/
def c1meta : SignMetadata :=
  { noMetadata with
      companyName := some "Local Car Park Management Ltd",
      parkingCharge := some 100,
      reducedCharge := some 60,
      hasAnpr := some false }

/-- The §8 example: a `terms_conditions` sign whose only element is the single
text element `c1text`. -/
def c1sign : Sign :=
  { id := "c1", reference := "KRS-TCS-001-v1", type := .terms_conditions, site := "KRS",
    elements := [{ id := "e1", type := .text, content := c1text, style := { fontSize := none } }],
    metadata := c1meta }

/-- Two text elements that spell a header phrase only when concatenated. -/
def c2sign : Sign :=
  { id := "c2", reference := "X-ENT-001-v1", type := .entrance, site := "X",
    elements :=
      [{ id := "e1", type := .text, content := "private", style := { fontSize := none } },
       { id := "e2", type := .text, content := "land", style := { fontSize := none } }],
    metadata := noMetadata }

/-- A single text element that matches a header pattern on its own. -/
def c2signB : Sign :=
  { id := "c2b", reference := "X-ENT-002-v1", type := .entrance, site := "X",
    elements :=
      [{ id := "e1", type := .text, content := "private land", style := { fontSize := none } }],
    metadata := noMetadata }

/-- A plain `disabled`-type sign. -/
def c5sign : Sign :=
  { id := "c5", reference := "X-DIS-001-v1", type := .disabled, site := "X",
    elements := [], metadata := noMetadata }

/-- `terms_conditions` signs varying only in `parkingCharge`. -/
def c6sign0 : Sign :=
  { id := "c6a", reference := "X-TCS-001-v1", type := .terms_conditions, site := "X",
    elements := [], metadata := { noMetadata with parkingCharge := some 0 } }

def c6sign100 : Sign :=
  { id := "c6b", reference := "X-TCS-002-v1", type := .terms_conditions, site := "X",
    elements := [], metadata := { noMetadata with parkingCharge := some 100 } }

def c6sign101 : Sign :=
  { id := "c6c", reference := "X-TCS-003-v1", type := .terms_conditions, site := "X",
    elements := [], metadata := { noMetadata with parkingCharge := some 101 } }

/-- An `entrance` sign with no elements and every metadata field missing. -/
def c8sign : Sign :=
  { id := "c8", reference := "X-ENT-003-v1", type := .entrance, site := "X",
    elements := [], metadata := noMetadata }

/-- A `wayfinding` sign that even fails the font-size warning. -/
def c10sign : Sign :=
  { id := "c10", reference := "X-WAY-001-v1", type := .wayfinding, site := "X",
    elements := [{ id := "e1", type := .text, content := "tiny", style := { fontSize := some 5 } }],
    metadata := noMetadata }

/-! ## Claim theorems. -/

/-- C3: for every sign, `checkCompliance(sign).compliant` is true iff every
applicable required-category rule's check passes (vacuously true when no
required rule applies to the sign's type). -/
theorem c3_compliant_iff_required (sign : Sign) :
    (checkCompliance sign).compliant = true ↔
      ∀ rule ∈ BPA_RULES, sign.type ∈ rule.signTypes → rule.category = .required →
        rule.check sign = true := by
  show (((BPA_RULES.filter (fun rule => decide (sign.type ∈ rule.signTypes))).map
      (fun rule => RuleOutcome.mk rule (rule.check sign))).filter
      (fun r => decide (r.rule.category = .required))).all (fun r => r.result) = true ↔ _
  rw [List.all_eq_true]
  constructor
  · intro h rule hmem htype hcat
    exact h ⟨rule, rule.check sign⟩
      (List.mem_filter.mpr
        ⟨List.mem_map.mpr ⟨rule, List.mem_filter.mpr ⟨hmem, by simpa using htype⟩, rfl⟩,
         by simpa using hcat⟩)
  · intro h o ho
    rcases List.mem_filter.mp ho with ⟨ho1, hcat⟩
    rcases List.mem_map.mp ho1 with ⟨rule, hrule, rfl⟩
    rcases List.mem_filter.mp hrule with ⟨hmem, htype⟩
    exact h rule hmem (by simpa using htype) (by simpa using hcat)

/-- C4 counterexample: the reference generator does NOT uppercase the site
code — `generateSignReference "krs" "entrance" 1 1` is `"krs-ENT-001-v1"`,
not the claimed `"KRS-ENT-001-v1"`. -/
theorem c4_counterexample :
    generateSignReference "krs" "entrance" 1 1 = "krs-ENT-001-v1" ∧
    generateSignReference "krs" "entrance" 1 1 ≠ "KRS-ENT-001-v1" := by decide

/-- C4 (amended): the generator uses the site code verbatim (no uppercasing),
maps the type through the fixed table with GEN as fallback, zero-pads the
sequence to 3 digits, and formats `"{site}-{CODE}-{SEQ:03}-v{VERSION}"`; it is
total over arbitrary type strings. -/
theorem c4_amended :
    (∀ (site type : String) (sequence version : Nat),
      generateSignReference site type sequence version =
        site ++ "-" ++ getTypeCode type ++ "-" ++ padStart3 (toString sequence) ++ "-v" ++
          toString version) ∧
    getTypeCode "entrance" = "ENT" ∧ getTypeCode "terms_conditions" = "TCS" ∧
    getTypeCode "tariff" = "TAR" ∧ getTypeCode "disabled" = "DIS" ∧
    getTypeCode "ev_charging" = "EVC" ∧ getTypeCode "internal" = "INT" ∧
    getTypeCode "wayfinding" = "WAY" ∧ getTypeCode "unknown_type" = "GEN" ∧
    generateSignReference "krs" "entrance" 1 1 = "krs-ENT-001-v1" ∧
    generateSignReference "krs" "unknown_type" 7 2 = "krs-GEN-007-v2" := by
  refine ⟨fun site type sequence version => rfl, ?_⟩
  decide

/-- C5 counterexample: for a concrete `disabled` sign the results list is
exactly `[font-size-legibility]` — it does NOT contain `border-visibility`
(whose applicability is entrance/terms_conditions/tariff only). -/
theorem c5_counterexample :
    c5sign.type = .disabled ∧
    ((checkCompliance c5sign).results.map (fun r => r.rule.id)) = ["font-size-legibility"] ∧
    "border-visibility" ∉ ((checkCompliance c5sign).results.map (fun r => r.rule.id)) := by
  decide

/-- C5 (amended): for every `disabled`-type sign the results list contains
exactly the single warning rule `font-size-legibility`; in particular it never
contains `parking-charge-amount` or `border-visibility`. -/
theorem c5_amended (sign : Sign) (h : sign.type = .disabled) :
    ((checkCompliance sign).results.map (fun r => r.rule.id)) = ["font-size-legibility"] := by
  rcases sign with ⟨i, rf, ty, st, els, md⟩
  cases ty <;> first | rfl | simp at h

/-- C5 witness. -/
theorem c5_amended_witness :
    c5sign.type = .disabled ∧
    ((checkCompliance c5sign).results.map (fun r => r.rule.id)) = ["font-size-legibility"] :=
  ⟨rfl, c5_amended c5sign rfl⟩

/-- C6 counterexample: with `parkingCharge = 0` the charge is present and
`≤ 100`, yet the rule fails (JS `!charge` treats 0 as unspecified). -/
theorem c6_counterexample :
    c6sign0.type = .terms_conditions ∧ c6sign0.metadata.parkingCharge = some 0 ∧
    (0 : Nat) ≤ BPA_MAX_PARKING_CHARGE ∧
    parkingChargeAmountRule.check c6sign0 = false := by decide

/-- C6 (amended): the `parking-charge-amount` rule passes iff
`metadata.parkingCharge` is present, nonzero (JS truthiness) and at most 100;
in particular 100 passes and 101 fails. -/
theorem c6_amended :
    (∀ sign : Sign, parkingChargeAmountRule.check sign = true ↔
      ∃ c, sign.metadata.parkingCharge = some c ∧ c ≠ 0 ∧ c ≤ BPA_MAX_PARKING_CHARGE) ∧
    c6sign100.type = .terms_conditions ∧ parkingChargeAmountRule.check c6sign100 = true ∧
    c6sign101.type = .terms_conditions ∧ parkingChargeAmountRule.check c6sign101 = false := by
  refine ⟨?_, by decide, by decide, by decide, by decide⟩
  intro sign
  rcases h : sign.metadata.parkingCharge with _ | c
  · simp [parkingChargeAmountRule, h]
  · by_cases hc : c = 0
    · subst hc; simp [parkingChargeAmountRule, h]
    · simp [parkingChargeAmountRule, h, hc]

/-- C7: the score is the exact rational `100 × passed / applicable`, rounded
half-up (`⌊x + 1/2⌋`, so ties go to the larger integer), and the number of
applicable rules is never zero. -/
theorem c7_score_half_up (sign : Sign) :
    0 < (checkCompliance sign).results.length ∧
    (checkCompliance sign).score =
      ⌊(100 * ((checkCompliance sign).summary.passed : ℚ)) /
        ((checkCompliance sign).results.length : ℚ) + 1 / 2⌋ := by
  constructor
  · rcases sign with ⟨i, rf, ty, st, els, md⟩
    cases ty <;> exact Nat.succ_pos _
  · rw [checkCompliance_score, round_eq]
    congr 1
    ring

/-- C8 counterexample: `anpr-notice` references `metadata.hasAnpr`, yet with
that field missing the rule PASSES (it is not "treated as failing"). -/
theorem c8_counterexample :
    c8sign.metadata.hasAnpr = none ∧ anprNoticeRule.check c8sign = true := by decide

/-- C8 (amended): `checkCompliance` is total — the report always carries one
result per applicable rule — and a missing `parkingCharge`, `reducedCharge` or
`companyName` fails the rule that needs it, while a missing `hasAnpr` makes
`anpr-notice` pass (treated as "ANPR not used"). -/
theorem c8_amended (sign : Sign) :
    (sign.metadata.parkingCharge = none → parkingChargeAmountRule.check sign = false) ∧
    (sign.metadata.reducedCharge = none → reducedChargeAmountRule.check sign = false) ∧
    (sign.metadata.companyName = none → companyDetailsRule.check sign = false) ∧
    (sign.metadata.hasAnpr = none → anprNoticeRule.check sign = true) ∧
    (checkCompliance sign).results.length = (getRulesForSignType sign.type).length := by
  refine ⟨fun h => ?_, fun h => ?_, fun h => ?_, fun h => ?_, ?_⟩
  · simp [parkingChargeAmountRule, h]
  · simp [reducedChargeAmountRule, h]
  · simp [companyDetailsRule, h]
  · simp [anprNoticeRule, h]
  · have hlen : (checkCompliance sign).results.length =
        ((BPA_RULES.filter (fun rule => decide (sign.type ∈ rule.signTypes))).map
          (fun rule => RuleOutcome.mk rule (rule.check sign))).length := rfl
    rw [hlen, List.length_map]
    rfl

/-- C8 witness. -/
theorem c8_amended_witness :
    parkingChargeAmountRule.check c8sign = false ∧
    reducedChargeAmountRule.check c8sign = false ∧
    companyDetailsRule.check c8sign = false ∧
    anprNoticeRule.check c8sign = true ∧
    (checkCompliance c8sign).results.length = (getRulesForSignType c8sign.type).length := by
  obtain ⟨h1, h2, h3, h4, h5⟩ := c8_amended c8sign
  exact ⟨h1 rfl, h2 rfl, h3 rfl, h4 rfl, h5⟩

/-- C10: a sign whose type is disabled, ev_charging, internal or wayfinding is
always reported compliant — no required rule applies to those types, so the
conjunction over required results is vacuous. -/
theorem c10_vacuous_compliance (sign : Sign)
    (h : sign.type = .disabled ∨ sign.type = .ev_charging ∨ sign.type = .internal ∨
      sign.type = .wayfinding) :
    (checkCompliance sign).compliant = true := by
  rcases sign with ⟨i, rf, ty, st, els, md⟩
  cases ty with
  | disabled => rfl
  | ev_charging => rfl
  | internal => rfl
  | wayfinding => rfl
  | entrance => simp at h
  | terms_conditions => simp at h
  | tariff => simp at h

/-- C10 witness: a wayfinding sign that even fails the font-size warning is
still compliant. -/
theorem c10_vacuous_compliance_witness :
    (c10sign.type = .disabled ∨ c10sign.type = .ev_charging ∨ c10sign.type = .internal ∨
      c10sign.type = .wayfinding) ∧
    (checkCompliance c10sign).compliant = true :=
  ⟨Or.inr (Or.inr (Or.inr rfl)),
   c10_vacuous_compliance c10sign (Or.inr (Or.inr (Or.inr rfl)))⟩


set_option maxRecDepth 8000 in
/-- C1 counterexample: on the spec's §8 example sign the engine reports
`compliant: false`, not the claimed `true` (the sign has no logo element, so
`bpa-logo` fails; and the company name never occurs in the text, so
`company-details` fails). -/
theorem c1_counterexample : (checkCompliance c1sign).compliant = false := by decide

set_option maxRecDepth 8000 in
/-- C1 (amended): on the §8 example sign the engine reports
`compliant: false`, with exactly the required rules `bpa-logo` and
`company-details` failing. -/
theorem c1_amended :
    (checkCompliance c1sign).compliant = false ∧
    (((checkCompliance c1sign).results.filter
        (fun r => !r.result && decide (r.rule.category = .required))).map
      (fun r => r.rule.id)) = ["bpa-logo", "company-details"] := by decide

/-- C2 counterexample: on an entrance sign with the two text elements
`"private"` and `"land"`, the library's per-element `header-statement` check
fails, while the same patterns succeed on the concatenated text
(`getSignText` yields `"private land"`). -/
theorem c2_counterexample :
    headerStatementRule.check c2sign = false ∧
    headerPatterns.any (fun p => testI p (getSignText c2sign)) = true := by decide

/-- C2 (amended): the per-element evaluation implies the concatenated-text
evaluation (any unanchored match inside one element is a match inside the
joined text), but the two are not equivalent — a pattern can match across
element boundaries of the joined text only. -/
theorem c2_amended (pats : List Regex) (sign : Sign)
    (h : anyTextMatches pats sign = true) :
    pats.any (fun p => testI p (getSignText sign)) = true := by
  unfold anyTextMatches at h
  obtain ⟨el, hel, hmatch⟩ := List.any_eq_true.mp h
  obtain ⟨p, hp, htest⟩ := List.any_eq_true.mp hmatch
  refine List.any_eq_true.mpr ⟨p, hp, ?_⟩
  have hmem : el.content.data ∈ (textElements sign).map (fun e => e.content.data) :=
    List.mem_map.mpr ⟨el, hel, rfl⟩
  have hinf : el.content.data <:+: (getSignText sign).data := by
    have hdata : (getSignText sign).data =
        joinSp ((textElements sign).map (fun e => e.content.data)) := rfl
    rw [hdata]
    exact mem_joinSp_infix hmem
  exact testI_mono hinf htest

/-- C2 witness. -/
theorem c2_amended_witness :
    anyTextMatches headerPatterns c2signB = true ∧
    headerPatterns.any (fun p => testI p (getSignText c2signB)) = true :=
  ⟨by decide, c2_amended headerPatterns c2signB (by decide)⟩

/-- Metadata with a present-but-zero parking charge (claim C9). -/
def c9meta0 : SignMetadata := { noMetadata with parkingCharge := some 0 }

/-- Metadata carrying a concrete registration number (claim C9's witness). -/
def c9regMeta : SignMetadata := { noMetadata with companyRegNumber := some "99999" }

/-- C9 counterexample: with `parkingCharge = 0` present in the metadata, the
placeholder is substituted with the default `"100"`, not with the metadata
value `"0"` (JS `metadata.parkingCharge || 100` treats 0 as absent). -/
theorem c9_counterexample :
    c9meta0.parkingCharge = some 0 ∧
    replaceTemplateVariables "\x7b\x7bparkingCharge\x7d\x7d" c9meta0 = "100" ∧
    replaceTemplateVariables "\x7b\x7bparkingCharge\x7d\x7d" c9meta0 ≠ "0" := by decide

/-- C9 (amended): template instantiation substitutes the table's ten known
placeholders with the metadata value when truthy and the documented default
when the value is absent (or falsy: `""`/0), inserting the replacement
through JS `GetSubstitution` — so a value free of dollars is inserted
literally, while e.g. the value `"$&"` expands to the matched placeholder
text itself; it assigns each element the next fresh identifier and attaches
the computed reference; placeholders outside the table (`{{paymentUrl}}`,
`{{tariffTable}}`, `{{locationCode}}`) are left verbatim. -/
theorem c9_amended :
    (∀ templateId template, getTemplate templateId = some template →
      ∀ (metadata : SignMetadata) (siteCode : String) (sequence : Nat) (freshId : Nat → String),
        ∃ sign, createSignFromTemplate templateId metadata siteCode sequence freshId = some sign ∧
          sign.type = template.type ∧
          sign.reference = generateSignReference siteCode template.type.toStr sequence 1 ∧
          sign.elements.map (fun e => e.content) =
            template.elements.map (fun e => replaceTemplateVariables e.content metadata) ∧
          sign.elements.map (fun e => e.id) =
            (List.range template.elements.length).map freshId) ∧
    (∀ metadata : SignMetadata,
      replaceTemplateVariables "\x7b\x7bpaymentUrl\x7d\x7d" metadata =
        "\x7b\x7bpaymentUrl\x7d\x7d" ∧
      replaceTemplateVariables "\x7b\x7btariffTable\x7d\x7d" metadata =
        "\x7b\x7btariffTable\x7d\x7d" ∧
      replaceTemplateVariables "\x7b\x7blocationCode\x7d\x7d" metadata =
        "\x7b\x7blocationCode\x7d\x7d") ∧
    (∀ (metadata : SignMetadata) (v : String), metadata.companyRegNumber = some v → v ≠ "" →
      strIncludes v "\x7b\x7b" = false → strIncludes v "$" = false →
      replaceTemplateVariables "\x7b\x7bcompanyRegNumber\x7d\x7d" metadata = v) ∧
    (∀ metadata : SignMetadata, metadata.companyRegNumber = some "$&" →
      replaceTemplateVariables "\x7b\x7bcompanyRegNumber\x7d\x7d" metadata = "\x7b\x7bcompanyRegNumber\x7d\x7d") := by
  refine ⟨?_, ?_, ?_, ?_⟩
  · intro tid tpl htpl m sc seq ids
    unfold createSignFromTemplate
    rw [htpl]
    refine ⟨_, rfl, rfl, rfl, ?_, ?_⟩
    · rw [List.map_map]
      conv_rhs => rw [← List.enum_map_snd tpl.elements, List.map_map]
      rfl
    · rw [List.map_map]
      conv_rhs => rw [← List.enum_map_fst tpl.elements, List.map_map]
      rfl
  · intro m
    refine ⟨?_, ?_, ?_⟩ <;>
      · unfold replaceTemplateVariables
        apply foldl_jsReplaceAll_id
        intro kv hkv
        have hk : kv.1 ∈ (replacements m).map Prod.fst := List.mem_map_of_mem Prod.fst hkv
        simp [replacements] at hk
        rcases hk with h | h | h | h | h | h | h | h | h | h <;> rw [h] <;> decide
  · intro m v hv hne hbr hds
    unfold replaceTemplateVariables replacements
    simp only [List.foldl_cons, List.foldl_nil]
    have hds' : containsSub v.data ['$'] = false := hds
    have h1 : jsReplaceAll "\x7b\x7bcompanyRegNumber\x7d\x7d" "\x7b\x7bsiteName\x7d\x7d"
        (strOr m.siteName "") = "\x7b\x7bcompanyRegNumber\x7d\x7d" :=
      jsReplaceAll_of_not_contains (by decide)
    have h2 : jsReplaceAll "\x7b\x7bcompanyRegNumber\x7d\x7d" "\x7b\x7bsiteCode\x7d\x7d"
        (strOr m.siteCode "") = "\x7b\x7bcompanyRegNumber\x7d\x7d" :=
      jsReplaceAll_of_not_contains (by decide)
    have h3 : jsReplaceAll "\x7b\x7bcompanyRegNumber\x7d\x7d" "\x7b\x7bcompanyName\x7d\x7d"
        (strOr m.companyName "Local Car Park Management Ltd") = "\x7b\x7bcompanyRegNumber\x7d\x7d" :=
      jsReplaceAll_of_not_contains (by decide)
    have hval : strOr m.companyRegNumber "14379954" = v := by simp [strOr, hv, hne]
    have h4 : jsReplaceAll "\x7b\x7bcompanyRegNumber\x7d\x7d" "\x7b\x7bcompanyRegNumber\x7d\x7d"
        (strOr m.companyRegNumber "14379954") = v := by
      rw [hval, jsReplaceAll_self (by decide), getSubstitution_of_no_dollar hds']
    have hr : ∀ (key rep : String), "\x7b\x7b".data <+: key.data → jsReplaceAll v key rep = v :=
      fun key rep hpre => jsReplaceAll_of_not_contains (containsSub_false_of_braces hpre hbr)
    rw [h1, h2, h3, h4, hr "\x7b\x7bhelplineNumber\x7d\x7d" _ (by decide),
      hr "\x7b\x7bparkingCharge\x7d\x7d" _ (by decide),
      hr "\x7b\x7breducedCharge\x7d\x7d" _ (by decide),
      hr "\x7b\x7bpaymentPeriod\x7d\x7d" _ (by decide),
      hr "\x7b\x7breducedPeriod\x7d\x7d" _ (by decide),
      hr "\x7b\x7bwebsite\x7d\x7d" _ (by decide)]
  · intro m hv
    unfold replaceTemplateVariables replacements
    simp only [List.foldl_cons, List.foldl_nil]
    have h1 : jsReplaceAll "\x7b\x7bcompanyRegNumber\x7d\x7d" "\x7b\x7bsiteName\x7d\x7d"
        (strOr m.siteName "") = "\x7b\x7bcompanyRegNumber\x7d\x7d" :=
      jsReplaceAll_of_not_contains (by decide)
    have h2 : jsReplaceAll "\x7b\x7bcompanyRegNumber\x7d\x7d" "\x7b\x7bsiteCode\x7d\x7d"
        (strOr m.siteCode "") = "\x7b\x7bcompanyRegNumber\x7d\x7d" :=
      jsReplaceAll_of_not_contains (by decide)
    have h3 : jsReplaceAll "\x7b\x7bcompanyRegNumber\x7d\x7d" "\x7b\x7bcompanyName\x7d\x7d"
        (strOr m.companyName "Local Car Park Management Ltd") = "\x7b\x7bcompanyRegNumber\x7d\x7d" :=
      jsReplaceAll_of_not_contains (by decide)
    have hval : strOr m.companyRegNumber "14379954" = "$&" := by
      rw [hv]
      decide
    have h4 : jsReplaceAll "\x7b\x7bcompanyRegNumber\x7d\x7d" "\x7b\x7bcompanyRegNumber\x7d\x7d"
        (strOr m.companyRegNumber "14379954") = "\x7b\x7bcompanyRegNumber\x7d\x7d" := by
      rw [hval]
      decide
    have hk : ∀ (key rep : String), containsSub ("\x7b\x7bcompanyRegNumber\x7d\x7d" : String).data key.data = false →
        jsReplaceAll "\x7b\x7bcompanyRegNumber\x7d\x7d" key rep = "\x7b\x7bcompanyRegNumber\x7d\x7d" :=
      fun key rep h => jsReplaceAll_of_not_contains h
    rw [h1, h2, h3, h4, hk "\x7b\x7bhelplineNumber\x7d\x7d" _ (by decide),
      hk "\x7b\x7bparkingCharge\x7d\x7d" _ (by decide),
      hk "\x7b\x7breducedCharge\x7d\x7d" _ (by decide),
      hk "\x7b\x7bpaymentPeriod\x7d\x7d" _ (by decide),
      hk "\x7b\x7breducedPeriod\x7d\x7d" _ (by decide),
      hk "\x7b\x7bwebsite\x7d\x7d" _ (by decide)]

/-- Metadata whose registration number is the GetSubstitution escape for the
matched text (claim C9's witness for the dollar semantics). -/
def c9dollarMeta : SignMetadata := { noMetadata with companyRegNumber := some "$&" }

/-- C9 witness. -/
theorem c9_amended_witness :
    (∃ sign, createSignFromTemplate "tariff-standard" noMetadata "KRS" 3 toString = some sign ∧
      sign.type = tariffStandardTemplate.type ∧
      sign.reference = generateSignReference "KRS" tariffStandardTemplate.type.toStr 3 1 ∧
      sign.elements.map (fun e => e.content) =
        tariffStandardTemplate.elements.map
          (fun e => replaceTemplateVariables e.content noMetadata) ∧
      sign.elements.map (fun e => e.id) =
        (List.range tariffStandardTemplate.elements.length).map toString) ∧
    replaceTemplateVariables "\x7b\x7bpaymentUrl\x7d\x7d" noMetadata =
      "\x7b\x7bpaymentUrl\x7d\x7d" ∧
    c9regMeta.companyRegNumber = some "99999" ∧
    replaceTemplateVariables "\x7b\x7bcompanyRegNumber\x7d\x7d" c9regMeta = "99999" ∧
    c9dollarMeta.companyRegNumber = some "$&" ∧
    replaceTemplateVariables "\x7b\x7bcompanyRegNumber\x7d\x7d" c9dollarMeta = "\x7b\x7bcompanyRegNumber\x7d\x7d" :=
  ⟨c9_amended.1 "tariff-standard" tariffStandardTemplate rfl noMetadata "KRS" 3 toString,
   (c9_amended.2.1 noMetadata).1,
   rfl,
   c9_amended.2.2.1 c9regMeta "99999" rfl (by decide) (by decide) (by decide),
   rfl,
   c9_amended.2.2.2 c9dollarMeta rfl⟩

end Signage
